import Mathlib

/-!
Shallow embedding of the F1ClashManager loadout-scoring core:
the upgrade-progress calculator (`src/utils/utils.py`), the stat
interpolator (`src/data/raw_data_processor.py`), the series matcher
(`modules/loadouts.py` with the catalog of `src/core/series_data.py`)
and the Grand Prix eligibility checker (`modules/grand_prix.py`).
Python ints are modelled as `ℤ`/`ℕ`, floats as `ℚ`, dicts as
association lists, and fallible lookups as `Option`.
-/

namespace F1Clash

/-- An item as consumed by the upgrade calculator: the `rarity` and `level`
keys read by `calculate_highest_level` in `src/utils/utils.py`. -/
structure Item where
  rarity : String
  level : ℕ
deriving DecidableEq

/-- The fixed per-rarity cost tables of `get_cards_per_level`
(`src/utils/utils.py`): target level `2..11` mapped to the cards required to
reach it from the previous level; unknown rarities yield an empty table. -/
def get_cards_per_level (rarity : String) : List (ℕ × ℤ) :=
  if rarity = "Common" then
    [(2, 4), (3, 10), (4, 20), (5, 50), (6, 100),
     (7, 200), (8, 400), (9, 800), (10, 1000), (11, 5000)]
  else if rarity = "Rare" then
    [(2, 2), (3, 5), (4, 10), (5, 20), (6, 50),
     (7, 100), (8, 200), (9, 400), (10, 500), (11, 2000)]
  else if rarity = "Epic" then
    [(2, 1), (3, 2), (4, 5), (5, 10), (6, 20),
     (7, 50), (8, 100), (9, 200), (10, 250), (11, 800)]
  else if rarity = "Legendary" then
    [(2, 1), (3, 1), (4, 2), (5, 5), (6, 10),
     (7, 20), (8, 50), (9, 100), (10, 150), (11, 400)]
  else
    []

/-- Python `cards_per_level.get(level, 0)` on a cost table. -/
def dictGet (d : List (ℕ × ℤ)) (k : ℕ) : ℤ :=
  match d.find? (fun p => p.1 = k) with
  | some p => p.2
  | none => 0

/-- The loop of `calculate_highest_level`: walk the target levels in order,
paying each level's cost out of the running card balance and recording the
last level paid for; stop the first time the balance is insufficient. -/
def walkLevels (cpl : List (ℕ × ℤ)) : List ℕ → ℤ → ℕ → ℕ
  | [], _, highest => highest
  | l :: rest, cards, highest =>
    let needed := dictGet cpl l
    if needed ≤ cards then walkLevels cpl rest (cards - needed) l
    else highest

/-- `calculate_highest_level` (`src/utils/utils.py`): level `0` means not in
inventory and forces the result `0`; otherwise walk target levels
`level + 1 .. 11` (`range(current_level + 1, 12)`). -/
def calculate_highest_level (item : Item) (cards_owned : ℤ) : ℕ :=
  if item.level = 0 then 0
  else
    walkLevels (get_cards_per_level item.rarity)
      (List.range' (item.level + 1) (11 - item.level)) cards_owned item.level

/-- The `upgradeInfo` dictionary written by `update_item_upgrade_info`. -/
structure UpgradeInfo where
  cardsOwned : ℤ
  perLevel : List (ℕ × ℤ)
  maxCards : ℤ
  cardsNeeded : ℤ
  totalCards : ℤ
deriving DecidableEq

/-- The item as returned by `update_item_upgrade_info`, with the
`highestLevel` and `upgradeInfo` fields populated. -/
structure UpdatedItem where
  rarity : String
  level : ℕ
  highestLevel : ℕ
  upgradeInfo : UpgradeInfo
deriving DecidableEq

/-- `update_item_upgrade_info` (`src/utils/utils.py`): `maxCards` is the sum
of the rarity's whole table, `usedCards` the costs of levels `2..level`
(`range(2, item.level + 1)`), `totalCards = cards_owned + usedCards`, and
`cardsNeeded` the costs of levels `level + 1 .. 11`. -/
def update_item_upgrade_info (item : Item) (cards_owned : ℤ) : UpdatedItem :=
  let cpl := get_cards_per_level item.rarity
  let max_cards := (cpl.map Prod.snd).sum
  let highest_level := calculate_highest_level item cards_owned
  let used_cards := ((List.range' 2 (item.level - 1)).map (dictGet cpl)).sum
  let total_cards := cards_owned + used_cards
  let cards_needed := ((List.range' (item.level + 1) (11 - item.level)).map (dictGet cpl)).sum
  { rarity := item.rarity, level := item.level, highestLevel := highest_level,
    upgradeInfo :=
      { cardsOwned := cards_owned, perLevel := cpl, maxCards := max_cards,
        cardsNeeded := cards_needed, totalCards := total_cards } }

example : calculate_highest_level ⟨"Common", 8⟩ 784 = 8 := by decide
example : calculate_highest_level ⟨"Common", 8⟩ 1009 = 9 := by decide
example : (update_item_upgrade_info ⟨"Common", 8⟩ 784).upgradeInfo.totalCards = 1568 := by decide
example : calculate_highest_level ⟨"Common", 0⟩ 500 = 0 := by decide

/-- A per-level component stat bundle as built by `process_component_raw_data`
and `get_component_stats` (`src/data/raw_data_processor.py`); floats are
modelled as `ℚ`. -/
structure CompStats where
  level : ℕ
  speed : ℚ
  cornering : ℚ
  power_unit : ℚ
  qualifying : ℚ
  pit_time : ℚ
  total_value : ℚ
deriving DecidableEq

/-- One raw level-table entry of `process_component_raw_data`
(`src/data/raw_data_processor.py`, the `component_data[name]["levels"]`
dictionary): the stored `total_value` is
`speed + cornering + power_unit + qualifying + pit_time`. -/
def componentLevelEntry (level : ℕ) (speed cornering power_unit qualifying pit_time : ℚ) :
    CompStats :=
  { level := level, speed := speed, cornering := cornering, power_unit := power_unit,
    qualifying := qualifying, pit_time := pit_time,
    total_value := speed + cornering + power_unit + qualifying + pit_time }

/-- A per-level driver stat bundle as built by `process_driver_raw_data` and
`get_driver_stats` (`src/data/raw_data_processor.py`); driver stats are
Python ints, modelled as `ℤ`. -/
structure DriverLevelStats where
  level : ℕ
  overtaking : ℤ
  defending : ℤ
  qualifying : ℤ
  race_start : ℤ
  tyre_mgmt : ℤ
  total_value : ℤ
deriving DecidableEq

/-- One raw level-table entry of `process_driver_raw_data`
(`src/data/raw_data_processor.py`): `total_value` is the sum of the five
driver stats. -/
def driverLevelEntry (level : ℕ) (overtaking defending qualifying race_start tyre_mgmt : ℤ) :
    DriverLevelStats :=
  { level := level, overtaking := overtaking, defending := defending,
    qualifying := qualifying, race_start := race_start, tyre_mgmt := tyre_mgmt,
    total_value := overtaking + defending + qualifying + race_start + tyre_mgmt }

/-- Python 3 `round` (banker's rounding, round half to even) applied to a
rational: ties at fractional part `1/2` go to the even neighbour, every
other value to the nearest integer. -/
def pyRound (q : ℚ) : ℤ :=
  if q - ⌊q⌋ = 1 / 2 then (if 2 ∣ ⌊q⌋ then ⌊q⌋ else ⌊q⌋ + 1) else round q

/-- The interpolation factor `(level - lower_level) / (higher_level - lower_level)`
of `get_component_stats` and `get_driver_stats`. -/
def interpFactor (lower_level higher_level level : ℕ) : ℚ :=
  ((level : ℚ) - (lower_level : ℚ)) / ((higher_level : ℚ) - (lower_level : ℚ))

/-- The per-stat linear interpolation `lower + factor * (higher - lower)` used by
`get_component_stats` and `get_driver_stats`. -/
def interpStat (lower higher factor : ℚ) : ℚ :=
  lower + factor * (higher - lower)

/-- The interpolated component bundle of `get_component_stats`
(`src/data/raw_data_processor.py`, lines 336-352): each stat interpolated
linearly, then `total_value` recomputed as the sum of the five interpolated
stats (pit_time included). -/
def interpolateComp (lower_stats higher_stats : CompStats)
    (lower_level higher_level level : ℕ) : CompStats :=
  let factor := interpFactor lower_level higher_level level
  let speed := interpStat lower_stats.speed higher_stats.speed factor
  let cornering := interpStat lower_stats.cornering higher_stats.cornering factor
  let power_unit := interpStat lower_stats.power_unit higher_stats.power_unit factor
  let qualifying := interpStat lower_stats.qualifying higher_stats.qualifying factor
  let pit_time := interpStat lower_stats.pit_time higher_stats.pit_time factor
  { level := level, speed := speed, cornering := cornering, power_unit := power_unit,
    qualifying := qualifying, pit_time := pit_time,
    total_value := speed + cornering + power_unit + qualifying + pit_time }

/-- The interpolated driver bundle of `get_driver_stats`
(`src/data/raw_data_processor.py`, lines 430-446): each stat interpolated
linearly and passed through Python `round`, then `total_value` recomputed as
the sum of the five rounded stats. -/
def interpolateDriver (lower_stats higher_stats : DriverLevelStats)
    (lower_level higher_level level : ℕ) : DriverLevelStats :=
  let factor := interpFactor lower_level higher_level level
  let overtaking := pyRound (interpStat (lower_stats.overtaking : ℚ) (higher_stats.overtaking : ℚ) factor)
  let defending := pyRound (interpStat (lower_stats.defending : ℚ) (higher_stats.defending : ℚ) factor)
  let qualifying := pyRound (interpStat (lower_stats.qualifying : ℚ) (higher_stats.qualifying : ℚ) factor)
  let race_start := pyRound (interpStat (lower_stats.race_start : ℚ) (higher_stats.race_start : ℚ) factor)
  let tyre_mgmt := pyRound (interpStat (lower_stats.tyre_mgmt : ℚ) (higher_stats.tyre_mgmt : ℚ) factor)
  { level := level, overtaking := overtaking, defending := defending,
    qualifying := qualifying, race_start := race_start, tyre_mgmt := tyre_mgmt,
    total_value := overtaking + defending + qualifying + race_start + tyre_mgmt }

/-- Insertion step of an ascending sort, modelling Python `list.sort()` on the
level keys in `get_component_stats` and `get_driver_stats`. -/
def insertAsc (x : ℕ) : List ℕ → List ℕ
  | [] => [x]
  | y :: ys => if x ≤ y then x :: y :: ys else y :: insertAsc x ys

/-- Ascending sort of the level keys (`level_numbers.sort()`). -/
def sortAsc (l : List ℕ) : List ℕ :=
  l.foldr insertAsc []

/-- The scan of `get_component_stats` and `get_driver_stats` over the sorted
level keys: the accumulator holds the last key below `level`; the first key
above `level` stops the scan (`break`); keys equal to `level` are skipped. -/
def findLowerHigher (level : ℕ) : List ℕ → Option ℕ → Option ℕ × Option ℕ
  | [], lower => (lower, none)
  | l :: rest, lower =>
    if l < level then findLowerHigher level rest (some l)
    else if level < l then (lower, some l)
    else findLowerHigher level rest lower

/-- Exact lookup of a level in a raw level table (`str(level) in levels`). -/
def lookupCompLevel (table : List (ℕ × CompStats)) (level : ℕ) : Option CompStats :=
  (table.find? (fun p => p.1 = level)).map Prod.snd

/-- Exact lookup of a level in a raw driver level table. -/
def lookupDriverLevel (table : List (ℕ × DriverLevelStats)) (level : ℕ) :
    Option DriverLevelStats :=
  (table.find? (fun p => p.1 = level)).map Prod.snd

/-- The pure core of `get_component_stats` (`src/data/raw_data_processor.py`),
with the item's raw level table passed in place of the JSON file: exact hit
returned unchanged; otherwise, when interpolation is enabled, interpolate
between the nearest lower and higher sampled levels, or clamp to the only
neighbour found; `none` when the table gives no answer. -/
def get_component_stats (table : List (ℕ × CompStats)) (level : ℕ)
    (interpolate : Bool) : Option CompStats :=
  match lookupCompLevel table level with
  | some s => some s
  | none =>
    if interpolate then
      match findLowerHigher level (sortAsc (table.map Prod.fst)) none with
      | (some lower, some higher) =>
        match lookupCompLevel table lower, lookupCompLevel table higher with
        | some lower_stats, some higher_stats =>
          some (interpolateComp lower_stats higher_stats lower higher level)
        | _, _ => none
      | (some lower, none) => lookupCompLevel table lower
      | (none, some higher) => lookupCompLevel table higher
      | (none, none) => none
    else none

/-- The pure core of `get_driver_stats` (`src/data/raw_data_processor.py`),
same shape as `get_component_stats` but with integer driver stats and
rounded interpolation. -/
def get_driver_stats (table : List (ℕ × DriverLevelStats)) (level : ℕ)
    (interpolate : Bool) : Option DriverLevelStats :=
  match lookupDriverLevel table level with
  | some s => some s
  | none =>
    if interpolate then
      match findLowerHigher level (sortAsc (table.map Prod.fst)) none with
      | (some lower, some higher) =>
        match lookupDriverLevel table lower, lookupDriverLevel table higher with
        | some lower_stats, some higher_stats =>
          some (interpolateDriver lower_stats higher_stats lower higher level)
        | _, _ => none
      | (some lower, none) => lookupDriverLevel table lower
      | (none, some higher) => lookupDriverLevel table higher
      | (none, none) => none
    else none

example :
    get_component_stats
      [(5, componentLevelEntry 5 10 0 0 0 0), (9, componentLevelEntry 9 20 0 0 0 0)]
      7 true = some (interpolateComp (componentLevelEntry 5 10 0 0 0 0)
        (componentLevelEntry 9 20 0 0 0 0) 5 9 7) := by
  simp [get_component_stats, lookupCompLevel, sortAsc, insertAsc, findLowerHigher]
example :
    (interpolateComp (componentLevelEntry 5 10 0 0 0 0)
      (componentLevelEntry 9 20 0 0 0 0) 5 9 7).speed = 15 := by
  norm_num [interpolateComp, interpStat, interpFactor, componentLevelEntry]
example : pyRound (5 / 2) = 2 := by norm_num [pyRound]
example : pyRound (7 / 2) = 4 := by norm_num [pyRound]
example : pyRound (17 / 10) = 2 := by norm_num [pyRound, round_eq]

/-- A series catalog entry (`src/core/series_data.py`): series number, track
stats focus label, and the recommended total-strength range string. -/
structure SeriesInfo where
  series : ℕ
  track_stats : String
  recommended_ts : String
deriving DecidableEq

/-- `DEFAULT_SERIES_DATA` of `src/core/series_data.py`, including the Grand
Prix pseudo-series `0` appended after the twelve numbered series. -/
def DEFAULT_SERIES_DATA : List SeriesInfo :=
  [⟨1, "Defending", "0 - 350"⟩,
   ⟨2, "Tyre Mgmt", "250 - 450"⟩,
   ⟨3, "Speed", "350 - 600"⟩,
   ⟨4, "Overtaking", "450 - 700"⟩,
   ⟨5, "Cornering", "550 - 800"⟩,
   ⟨6, "Race Start", "650 - 900"⟩,
   ⟨7, "Power Unit", "750 - 1000"⟩,
   ⟨8, "Defending", "850 - 1100"⟩,
   ⟨9, "Speed", "950 - 1200"⟩,
   ⟨10, "Rotating", "1050 - 1300"⟩,
   ⟨11, "Rotating", "1250 - 1550"⟩,
   ⟨12, "Rotating", "1450 - 1799"⟩,
   ⟨0, "Custom", "1000+"⟩]

/-- `TRACK_STATS_TO_ATTRIBUTES` of `src/core/series_data.py`: the fixed map
from track-stats labels to canonical loadout attribute names. -/
def TRACK_STATS_TO_ATTRIBUTES : List (String × String) :=
  [("Defending", "defending"),
   ("Tyre Mgmt", "tyre_mgmt"),
   ("Speed", "speed"),
   ("Overtaking", "overtaking"),
   ("Cornering", "cornering"),
   ("Race Start", "race_start"),
   ("Power Unit", "power_unit"),
   ("Custom", "custom")]

/-- Python `dict.get(key, default)` on a string-to-string map. -/
def mapGetD (m : List (String × String)) (k dflt : String) : String :=
  match m.find? (fun p => p.1 = k) with
  | some p => p.2
  | none => dflt

/-- Split a character list at the first occurrence of a (nonempty) separator:
the part before and the part after, or `none` when the separator is absent. -/
def breakOnSep (sep : List Char) : List Char → Option (List Char × List Char)
  | [] => none
  | c :: rest =>
    if sep.isPrefixOf (c :: rest) then some ([], (c :: rest).drop sep.length)
    else
      match breakOnSep sep rest with
      | some (pre, post) => some (c :: pre, post)
      | none => none

/-- Fuelled repeated splitting, modelling Python `str.split(sep)` on
character lists; the fuel is at least the list length, so it never runs out
for a nonempty separator. -/
def splitSepFuel (sep : List Char) : ℕ → List Char → List (List Char)
  | 0, l => [l]
  | fuel + 1, l =>
    match breakOnSep sep l with
    | none => [l]
    | some (pre, post) => pre :: splitSepFuel sep fuel post

/-- Python `str.split(sep)` for a nonempty separator. -/
def pySplit (s sep : String) : List String :=
  (splitSepFuel sep.data (s.data.length + 1) s.data).map String.mk

/-- Parse a nonempty string of decimal digits into a natural number. -/
def digitsToNat? : List Char → Option ℕ
  | [] => none
  | l =>
    l.foldl (fun acc c =>
      match acc with
      | none => none
      | some n => if c.isDigit then some (n * 10 + (c.toNat - 48)) else none)
      (some 0)

/-- `safe_int` (`src/utils/utils.py`): strip commas, parse as a Python float
and truncate the result to int, returning `0` on failure. Modelled for
numeric strings of the shape `[-]digits[.digits]`; anything else (such as
`1000+`) fails to parse and yields `0`, as `int(float(value))` raises
there. -/
def safe_int (s : String) : ℤ :=
  let cleaned := s.data.filter (fun c => c ≠ ',')
  let neg := cleaned.take 1 = ['-']
  let body := if neg then cleaned.drop 1 else cleaned
  let intPart :=
    match splitSepFuel ['.'] (body.length + 1) body with
    | [whole] => digitsToNat? whole
    | [whole, frac] =>
      if frac.all Char.isDigit ∧ frac ≠ [] then digitsToNat? whole else none
    | _ => none
  match intPart with
  | some n => if neg then -(n : ℤ) else (n : ℤ)
  | none => 0

/-- The rotating-series substitution of `find_matching_series_for_loadout`
(`modules/loadouts.py`, lines 386-388): a `Rotating` label is replaced by the
externally supplied override for that series number when one exists. -/
def resolveTrackStats (track_stats : String) (rotating : List (String × String))
    (series_num : ℕ) : String :=
  if track_stats = "Rotating" ∧ rotating ≠ [] then
    match rotating.find? (fun p => p.1 = toString series_num) with
    | some p => p.2
    | none => track_stats
  else track_stats

/-- The aggregated car stat bundle of a loadout's `calculations.car_stats`. -/
structure CarStats where
  speed : ℚ
  cornering : ℚ
  power_unit : ℚ
  qualifying : ℚ
  pit_time : ℚ
deriving DecidableEq

/-- The aggregated driver stat bundle of a loadout's
`calculations.driver_stats` (canonical snake-case keys). -/
structure LoadoutDriverStats where
  overtaking : ℚ
  defending : ℚ
  qualifying : ℚ
  race_start : ℚ
  tyre_mgmt : ℚ
deriving DecidableEq

/-- A loadout's `calculations` block as read by the series matcher. -/
structure Calculations where
  car_stats : CarStats
  driver_stats : LoadoutDriverStats
  total_value : ℚ
deriving DecidableEq

/-- Python `car_stats.get(focus_attribute, 0)` on the car stat bundle. -/
def carStatGet (cs : CarStats) (k : String) : ℚ :=
  if k = "speed" then cs.speed
  else if k = "cornering" then cs.cornering
  else if k = "power_unit" then cs.power_unit
  else if k = "qualifying" then cs.qualifying
  else if k = "pit_time" then cs.pit_time
  else 0

/-- Python `driver_stats.get(focus_attribute, 0)` on the driver stat bundle
(the dual-key `race_start`/`raceStart` chains resolve to the canonical
fields here). -/
def driverStatGet (ds : LoadoutDriverStats) (k : String) : ℚ :=
  if k = "overtaking" then ds.overtaking
  else if k = "defending" then ds.defending
  else if k = "qualifying" then ds.qualifying
  else if k = "race_start" then ds.race_start
  else if k = "tyre_mgmt" then ds.tyre_mgmt
  else 0

/-- The per-series score of `find_matching_series_for_loadout`
(`modules/loadouts.py`, lines 394-425), given the resolved focus attribute:
car-stat focus scores double weight, `pit_time` scores `(5 - pit) * 20`,
driver-stat focus adds the plain stat, every series gets `total_value * 0.1`,
and an out-of-range total strength is penalised (`0.5` per point under the
minimum, `0.2` per point over the maximum, bounds parsed from the
`recommended_ts` string with defaults `0` and `9999`). -/
def scoreWithFocus (calcs : Calculations) (focus : String) (recommended_ts : String) : ℚ :=
  let s1 : ℚ :=
    if focus ∈ (["speed", "cornering", "power_unit", "qualifying"] : List String) then
      carStatGet calcs.car_stats focus * 2
    else if focus = "pit_time" then (5 - calcs.car_stats.pit_time) * 20
    else 0
  let s2 : ℚ :=
    if focus ∈ (["overtaking", "defending", "qualifying", "race_start", "tyre_mgmt"] : List String) then
      s1 + driverStatGet calcs.driver_stats focus
    else s1
  let s3 := s2 + calcs.total_value * (1 / 10)
  let ts_range := pySplit recommended_ts " - "
  let min_ts : ℤ := match ts_range with
    | t :: _ => safe_int t
    | [] => 0
  let max_ts : ℤ := match ts_range with
    | _ :: t :: _ => safe_int t
    | _ => 9999
  if calcs.total_value < (min_ts : ℚ) then s3 - ((min_ts : ℚ) - calcs.total_value) * (1 / 2)
  else if (max_ts : ℚ) < calcs.total_value then s3 - (calcs.total_value - (max_ts : ℚ)) * (1 / 5)
  else s3

/-- One entry of the ranked list produced by
`find_matching_series_for_loadout`. -/
structure ScoredSeries where
  series : ℕ
  track_stats : String
  score : ℚ
deriving DecidableEq

/-- The focus-attribute resolution of the matcher
(`modules/loadouts.py`, line 391):
`TRACK_STATS_TO_ATTRIBUTES.get(track_stats, "speed")` applied after the
rotating-override substitution. -/
def resolveFocus (info : SeriesInfo) (rotating : List (String × String)) : String :=
  mapGetD TRACK_STATS_TO_ATTRIBUTES
    (resolveTrackStats info.track_stats rotating info.series) "speed"

/-- The loop body of `find_matching_series_for_loadout` for one series:
substitute the rotating override, resolve the focus attribute through
`TRACK_STATS_TO_ATTRIBUTES` with default `"speed"`, and score. -/
def scoreSeries (calcs : Calculations) (rotating : List (String × String))
    (info : SeriesInfo) : ScoredSeries :=
  { series := info.series,
    track_stats := resolveTrackStats info.track_stats rotating info.series,
    score := scoreWithFocus calcs (resolveFocus info rotating) info.recommended_ts }

/-- `find_matching_series_for_loadout` (`modules/loadouts.py`): score every
series of the catalog except the Grand Prix pseudo-series `0`, sort the
scores descending (Python `list.sort` with `reverse=True` is a stable sort),
and return the first five entries (`series_scores[:5]`). -/
def find_matching_series_for_loadout (calcs : Calculations)
    (seriesData : List SeriesInfo) (rotating : List (String × String)) :
    List ScoredSeries :=
  let scores := (seriesData.filter (fun s => s.series ≠ 0)).map (scoreSeries calcs rotating)
  (List.insertionSort (fun a b => b.score ≤ a.score) scores).take 5

/-- A driver or component record of a catalog document, as read by the Grand
Prix lookups (`modules/grand_prix.py`): its `name` and origin `series`. -/
structure CatalogItem where
  name : String
  series : ℕ
deriving DecidableEq

/-- The catalog state behind `get_driver_series` and `get_component_series`:
the `drivers.json` list and the per-component-type lists of the six
`COMPONENT_FILES`, in their fixed iteration order. -/
structure Catalog where
  drivers : List CatalogItem
  components : List (List CatalogItem)
deriving DecidableEq

/-- A Grand Prix category of `GP_CATEGORIES` (`modules/grand_prix.py`). -/
structure GPCategory where
  name : String
  max_series : ℕ
  description : String
deriving DecidableEq

/-- `GP_CATEGORIES` (`modules/grand_prix.py`, lines 16-20). -/
def GP_CATEGORIES : List GPCategory :=
  [⟨"Challenger", 6, "Components and drivers from series 6 and below"⟩,
   ⟨"Contender", 9, "Components and drivers from series 9 and below"⟩,
   ⟨"Champion", 12, "No limitations on components and drivers"⟩]

/-- `get_driver_series` (`modules/grand_prix.py`): first catalog driver with
the given name; `0` when the name is absent. -/
def get_driver_series (cat : Catalog) (driver_name : String) : ℕ :=
  match cat.drivers.find? (fun d => d.name = driver_name) with
  | some d => d.series
  | none => 0

/-- The file-by-file scan of `get_component_series`: search each component
type's list in order and stop at the first name match. -/
def findComponent (lists : List (List CatalogItem)) (component_name : String) :
    Option CatalogItem :=
  match lists with
  | [] => none
  | l :: rest =>
    match l.find? (fun c => c.name = component_name) with
    | some c => some c
    | none => findComponent rest component_name

/-- `get_component_series` (`modules/grand_prix.py`): first component with
the given name across the component files; `0` when the name is absent. -/
def get_component_series (cat : Catalog) (component_name : String) : ℕ :=
  match findComponent cat.components component_name with
  | some c => c.series
  | none => 0

/-- The slots of a loadout as traversed by the eligibility checker: driver
slot names and `(component type, component name)` pairs; the empty string
models a missing/falsy `name`, which the checker skips. -/
structure LoadoutSlots where
  drivers : List String
  components : List (String × String)
deriving DecidableEq

/-- Category lookup `GP_CATEGORIES[category]` as an `Option`. -/
def lookupCategory (category : String) : Option GPCategory :=
  GP_CATEGORIES.find? (fun c => c.name = category)

/-- `is_loadout_valid_for_category` (`modules/grand_prix.py`): unknown
categories are invalid; otherwise every named driver and component must
originate from a series at or below the category's `max_series`. -/
def is_loadout_valid_for_category (cat : Catalog) (lo : LoadoutSlots)
    (category : String) : Bool :=
  match lookupCategory category with
  | none => false
  | some gc =>
    (lo.drivers.all (fun n =>
      if n = "" then true else get_driver_series cat n ≤ gc.max_series)) &&
    (lo.components.all (fun p =>
      if p.2 = "" then true else get_component_series cat p.2 ≤ gc.max_series))

/-- An all-zero stat block, used as a concrete loadout input. -/
def zeroCalcs : Calculations :=
  { car_stats := { speed := 0, cornering := 0, power_unit := 0, qualifying := 0, pit_time := 0 },
    driver_stats := { overtaking := 0, defending := 0, qualifying := 0,
                      race_start := 0, tyre_mgmt := 0 },
    total_value := 0 }

example : safe_int "350" = 350 := by decide
example : safe_int "1000+" = 0 := by decide
example : safe_int "1,250" = 1250 := by decide
example :
    scoreSeries
      { zeroCalcs with
        car_stats := { zeroCalcs.car_stats with speed := 40 }, total_value := 500 }
      [] ⟨3, "Speed", "350 - 600"⟩ = ⟨3, "Speed", 130⟩ := by
  simp [scoreSeries, resolveFocus, scoreWithFocus, resolveTrackStats, mapGetD,
    TRACK_STATS_TO_ATTRIBUTES, carStatGet, zeroCalcs, safe_int, digitsToNat?,
    pySplit, splitSepFuel, breakOnSep, List.isPrefixOf]
  norm_num
example :
    (find_matching_series_for_loadout zeroCalcs DEFAULT_SERIES_DATA []).length = 5 := by
  simp only [find_matching_series_for_loadout, List.length_take,
    List.length_insertionSort]
  simp [DEFAULT_SERIES_DATA]

/-- The invariant of every stored component bundle: `total_value` is the sum
of the five stats, pit time included. -/
def totalIncludesPitTime (s : CompStats) : Prop :=
  s.total_value = s.speed + s.cornering + s.power_unit + s.qualifying + s.pit_time

instance : IsTotal ScoredSeries (fun a b => b.score ≤ a.score) :=
  ⟨fun a b => le_total b.score a.score⟩

instance : IsTrans ScoredSeries (fun a b => b.score ≤ a.score) :=
  ⟨fun _ _ _ h1 h2 => le_trans h2 h1⟩

theorem get_cards_per_level_eq_nil (rarity : String)
    (hr : rarity ∉ (["Common", "Rare", "Epic", "Legendary"] : List String)) :
    get_cards_per_level rarity = [] := by
  simp only [List.mem_cons, List.not_mem_nil, or_false, not_or] at hr
  obtain ⟨h1, h2, h3, h4⟩ := hr
  simp [get_cards_per_level, h1, h2, h3, h4]

theorem dictGet_nil (k : ℕ) : dictGet [] k = 0 := rfl

theorem walkLevels_nil (levels : List ℕ) (cards : ℤ) (h : ℕ) (hc : 0 ≤ cards) :
    walkLevels [] levels cards h = levels.getLastD h := by
  induction levels generalizing cards h with
  | nil => rfl
  | cons l rest ih =>
    have hstep : walkLevels [] (l :: rest) cards h = walkLevels [] rest (cards - 0) l := by
      simp [walkLevels, dictGet, hc]
    rw [hstep, sub_zero, ih cards l hc, List.getLastD_cons]

theorem range'_getLastD (n : ℕ) : ∀ s h : ℕ, (List.range' s (n + 1)).getLastD h = s + n := by
  induction n with
  | zero => intro s h; rfl
  | succ m ih =>
    intro s h
    rw [List.range'_succ s (m + 1) 1, List.getLastD_cons, ih (s + 1) s]
    omega

theorem interpFactor_bounds (lower_level higher_level level : ℕ)
    (h1 : lower_level < level) (h2 : level < higher_level) :
    0 ≤ interpFactor lower_level higher_level level ∧
      interpFactor lower_level higher_level level ≤ 1 := by
  have hl : (lower_level : ℚ) < (level : ℚ) := by exact_mod_cast h1
  have hh : (level : ℚ) < (higher_level : ℚ) := by exact_mod_cast h2
  unfold interpFactor
  constructor
  · exact div_nonneg (by linarith) (by linarith)
  · rw [div_le_one (by linarith)]
    linarith

theorem interpStat_bounds (lower higher f : ℚ) (hf0 : 0 ≤ f) (hf1 : f ≤ 1)
    (hlh : lower ≤ higher) :
    lower ≤ interpStat lower higher f ∧ interpStat lower higher f ≤ higher := by
  unfold interpStat
  constructor
  · nlinarith
  · nlinarith

theorem pyRound_mem (q : ℚ) : ⌊q⌋ ≤ pyRound q ∧ pyRound q ≤ ⌈q⌉ := by
  unfold pyRound
  split_ifs with h1 h2
  · exact ⟨le_refl _, Int.floor_le_ceil q⟩
  · have hq : (⌊q⌋ : ℚ) < q := by linarith
    have hqc : (⌊q⌋ : ℚ) < (⌈q⌉ : ℚ) := lt_of_lt_of_le hq (Int.le_ceil q)
    have hic : ⌊q⌋ < ⌈q⌉ := by exact_mod_cast hqc
    omega
  · rw [round_eq]
    constructor
    · exact Int.floor_le_floor (by linarith)
    · rw [Int.floor_le_iff]
      have := Int.le_ceil q
      linarith

theorem pyRound_bounds (a b : ℤ) (q : ℚ) (ha : (a : ℚ) ≤ q) (hb : q ≤ (b : ℚ)) :
    a ≤ pyRound q ∧ pyRound q ≤ b :=
  ⟨le_trans (Int.le_floor.mpr ha) (pyRound_mem q).1,
   le_trans (pyRound_mem q).2 (Int.ceil_le.mpr hb)⟩

theorem findComponent_eq_none (lists : List (List CatalogItem)) (nm : String)
    (h : ∀ l ∈ lists, l.find? (fun c => c.name = nm) = none) :
    findComponent lists nm = none := by
  induction lists with
  | nil => rfl
  | cons l rest ih =>
    have h1 := h l (by simp)
    have h2 : ∀ l2 ∈ rest, l2.find? (fun c => c.name = nm) = none :=
      fun l2 hl2 => h l2 (by simp [hl2])
    simp [findComponent, h1, ih h2]

theorem lookupCompLevel_mem (table : List (ℕ × CompStats)) (level : ℕ) (s : CompStats)
    (hs : lookupCompLevel table level = some s) : ∃ p ∈ table, p.2 = s := by
  unfold lookupCompLevel at hs
  cases hfind : table.find? (fun p => p.1 = level) with
  | none => rw [hfind] at hs; exact absurd hs (by simp)
  | some p =>
    rw [hfind] at hs
    simp only [Option.map_some'] at hs
    exact ⟨p, List.mem_of_find?_eq_some hfind, Option.some_injective _ hs⟩

/-- C1: evaluation of `update_item_upgrade_info` at the spec's scenario-1
input `{rarity: Common, level: 8, cardsOwned: 784}`. The Common cost table
prices level 9 at 800 cards, so the walk stops at once and `highestLevel`
is `8`, not the `9` the spec (and the repository's own test case
`Exactly Level 9` in `tests/test_highest_level.py`) expects; `totalCards`
is `784` plus the Common costs of levels `2..8` (which also sum to 784). -/
theorem upgrade_common_l8_784_eval :
    (update_item_upgrade_info ⟨"Common", 8⟩ 784).highestLevel = 8 ∧
    (update_item_upgrade_info ⟨"Common", 8⟩ 784).highestLevel ≠ 9 ∧
    (update_item_upgrade_info ⟨"Common", 8⟩ 784).upgradeInfo.totalCards =
      784 + ((List.range' 2 7).map (dictGet (get_cards_per_level "Common"))).sum := by
  decide

/-- C2 counterexample: a raw component level entry with `pit_time = 2` whose
stored `total_value` (3) differs from the sum of its value stats with
pit_time excluded (1): the code includes pit_time in every stored total. -/
theorem component_total_excludes_pit_cex :
    (componentLevelEntry 1 1 0 0 0 2).total_value ≠
      (componentLevelEntry 1 1 0 0 0 2).speed + (componentLevelEntry 1 1 0 0 0 2).cornering +
      (componentLevelEntry 1 1 0 0 0 2).power_unit +
      (componentLevelEntry 1 1 0 0 0 2).qualifying := by
  norm_num [componentLevelEntry]

/-- C2 amended: every raw level entry, and every bundle returned by
`get_component_stats` from a table of such entries, stores
`total_value = speed + cornering + power_unit + qualifying + pit_time`,
with pit_time included in (not excluded from) the total. -/
theorem component_total_includes_pit (lvl : ℕ) (a b c d e : ℚ)
    (table : List (ℕ × CompStats)) (level : ℕ) (s : CompStats)
    (hinv : ∀ p ∈ table, totalIncludesPitTime p.2)
    (hs : get_component_stats table level true = some s) :
    totalIncludesPitTime (componentLevelEntry lvl a b c d e) ∧ totalIncludesPitTime s := by
  constructor
  · simp [componentLevelEntry, totalIncludesPitTime]
  · unfold get_component_stats at hs
    cases hexact : lookupCompLevel table level with
    | some s0 =>
      rw [hexact] at hs
      obtain ⟨p, hp, hps⟩ := lookupCompLevel_mem table level s0 hexact
      cases hs
      exact hps ▸ hinv p hp
    | none =>
      rw [hexact] at hs
      simp only [if_true] at hs
      cases hlh : findLowerHigher level (sortAsc (table.map Prod.fst)) none with
      | mk lower higher =>
        rw [hlh] at hs
        match lower, higher with
        | some lo, some hi =>
          dsimp only at hs
          cases hlo : lookupCompLevel table lo with
          | none => rw [hlo] at hs; exact absurd hs (by simp)
          | some ls =>
            cases hhi : lookupCompLevel table hi with
            | none => rw [hlo, hhi] at hs; exact absurd hs (by simp)
            | some hsx =>
              rw [hlo, hhi] at hs
              dsimp only at hs
              cases hs
              simp [interpolateComp, totalIncludesPitTime]
        | some lo, none =>
          dsimp only at hs
          obtain ⟨p, hp, hps⟩ := lookupCompLevel_mem table lo s hs
          exact hps ▸ hinv p hp
        | none, some hi =>
          dsimp only at hs
          obtain ⟨p, hp, hps⟩ := lookupCompLevel_mem table hi s hs
          exact hps ▸ hinv p hp
        | none, none => exact absurd hs (by simp)

/-- C2 witness: a concrete table whose single entry satisfies the invariant,
a request above the sampled level (clamped to it), and the invariant of the
returned bundle. -/
theorem component_total_includes_pit_witness :
    (∀ p ∈ [(5, componentLevelEntry 5 10 2 3 4 6)], totalIncludesPitTime p.2) ∧
    get_component_stats [(5, componentLevelEntry 5 10 2 3 4 6)] 7 true =
      some (componentLevelEntry 5 10 2 3 4 6) ∧
    totalIncludesPitTime (componentLevelEntry 5 10 2 3 4 6) := by
  have hinv : ∀ p ∈ [(5, componentLevelEntry 5 10 2 3 4 6)], totalIncludesPitTime p.2 := by
    intro p hp
    simp only [List.mem_singleton] at hp
    subst hp
    simp [componentLevelEntry, totalIncludesPitTime]
  have hsome : get_component_stats [(5, componentLevelEntry 5 10 2 3 4 6)] 7 true =
      some (componentLevelEntry 5 10 2 3 4 6) := by
    simp [get_component_stats, lookupCompLevel, sortAsc, insertAsc, findLowerHigher]
  exact ⟨hinv, hsome,
    (component_total_includes_pit 5 10 2 3 4 6 _ 7 _ hinv hsome).2⟩

/-- C4 counterexample: the rarity `Mythic` (outside the four-value set)
yields the empty, all-zero cost table rather than a failure signal, and an
absent driver name yields series `0`, the same value a present series-0
driver yields — a silent default, indistinguishable from a real lookup. -/
theorem missing_lookups_not_flagged_cex :
    get_cards_per_level "Mythic" = ([] : List (ℕ × ℤ)) ∧
    dictGet (get_cards_per_level "Mythic") 2 = 0 ∧
    get_driver_series ⟨[⟨"Alice", 0⟩], []⟩ "Bob" =
      get_driver_series ⟨[⟨"Alice", 0⟩], []⟩ "Alice" := by
  decide

/-- C4 amended: for rarities outside {Common, Rare, Epic, Legendary} the
cost-table lookup returns the empty (zero-cost) table, and for names absent
from the catalog the series lookups return `0` — silent defaults, not
explicit failure signals. -/
theorem missing_lookups_return_defaults (rarity : String) (cat : Catalog)
    (driver_name component_name : String)
    (hr : rarity ∉ (["Common", "Rare", "Epic", "Legendary"] : List String))
    (hd : cat.drivers.find? (fun d => d.name = driver_name) = none)
    (hc : ∀ l ∈ cat.components, l.find? (fun c => c.name = component_name) = none) :
    get_cards_per_level rarity = [] ∧
    get_driver_series cat driver_name = 0 ∧
    get_component_series cat component_name = 0 := by
  refine ⟨get_cards_per_level_eq_nil rarity hr, ?_, ?_⟩
  · unfold get_driver_series
    rw [hd]
  · unfold get_component_series
    rw [findComponent_eq_none cat.components component_name hc]

/-- C4 witness: the defaults at a concrete catalog and concrete unknown
rarity and names. -/
theorem missing_lookups_return_defaults_witness :
    ("Mythic" ∉ (["Common", "Rare", "Epic", "Legendary"] : List String)) ∧
    get_cards_per_level "Mythic" = [] ∧
    get_driver_series ⟨[⟨"Alice", 5⟩], [[⟨"Wing", 3⟩]]⟩ "Bob" = 0 ∧
    get_component_series ⟨[⟨"Alice", 5⟩], [[⟨"Wing", 3⟩]]⟩ "Gadget" = 0 := by
  have h := missing_lookups_return_defaults "Mythic" ⟨[⟨"Alice", 5⟩], [[⟨"Wing", 3⟩]]⟩
    "Bob" "Gadget" (by decide) (by decide) (by decide)
  exact ⟨by decide, h.1, h.2.1, h.2.2⟩

/-- C5: the spec's scenario-4 series entry
`{series: 3, track_stats: Speed, recommended_ts: 350 - 600}` scored against
a loadout with `car_stats.speed = 40` and `total_value = 500` gives
`score = 40 * 2 + 500 * 0.1 = 130`: the focus resolves to the car stat
`speed` (double weight), the total-value baseline is added, and no range
penalty applies since `350 ≤ 500 ≤ 600`. -/
theorem series3_speed_score_130 :
    scoreSeries
      { zeroCalcs with
        car_stats := { zeroCalcs.car_stats with speed := 40 }, total_value := 500 }
      [] ⟨3, "Speed", "350 - 600"⟩ = ⟨3, "Speed", 130⟩ := by
  simp [scoreSeries, resolveFocus, scoreWithFocus, resolveTrackStats, mapGetD,
    TRACK_STATS_TO_ATTRIBUTES, carStatGet, zeroCalcs, safe_int, digitsToNat?,
    pySplit, splitSepFuel, breakOnSep, List.isPrefixOf]
  norm_num

/-- C8: for any rarity outside the four-value set, any level `1..11` and any
nonnegative card count, `update_item_upgrade_info` reports
`highestLevel = 11`, `maxCards = 0` and `cardsNeeded = 0`: the empty cost
table makes every remaining level free, so the walk always reaches 11. -/
theorem unknown_rarity_reaches_11 (rarity : String) (level : ℕ) (cards : ℤ)
    (hr : rarity ∉ (["Common", "Rare", "Epic", "Legendary"] : List String))
    (h1 : 1 ≤ level) (h2 : level ≤ 11) (hc : 0 ≤ cards) :
    (update_item_upgrade_info ⟨rarity, level⟩ cards).highestLevel = 11 ∧
    (update_item_upgrade_info ⟨rarity, level⟩ cards).upgradeInfo.maxCards = 0 ∧
    (update_item_upgrade_info ⟨rarity, level⟩ cards).upgradeInfo.cardsNeeded = 0 := by
  have hnil := get_cards_per_level_eq_nil rarity hr
  refine ⟨?_, ?_, ?_⟩
  · show calculate_highest_level ⟨rarity, level⟩ cards = 11
    unfold calculate_highest_level
    simp only [hnil]
    rw [if_neg (by omega), walkLevels_nil _ _ _ hc]
    rcases Nat.lt_or_ge level 11 with hlt | hge
    · have h11 : 11 - level = (10 - level) + 1 := by omega
      rw [h11, range'_getLastD]
      omega
    · have hl11 : level = 11 := by omega
      subst hl11
      rfl
  · show ((get_cards_per_level rarity).map Prod.snd).sum = 0
    rw [hnil]; rfl
  · show ((List.range' (level + 1) (11 - level)).map
        (dictGet (get_cards_per_level rarity))).sum = 0
    rw [hnil]
    apply List.sum_eq_zero
    intro x hx
    rw [List.mem_map] at hx
    obtain ⟨l, _, rfl⟩ := hx
    rfl

/-- C3 counterexample: with the default thirteen-entry catalog the matcher
returns 5 entries, not one per non-zero series (12): the result list is
truncated to a prefix, contrary to the claim. -/
theorem find_matching_truncates_cex :
    (find_matching_series_for_loadout zeroCalcs DEFAULT_SERIES_DATA []).length ≠
      (DEFAULT_SERIES_DATA.filter (fun s => s.series ≠ 0)).length := by
  have h5 : (find_matching_series_for_loadout zeroCalcs DEFAULT_SERIES_DATA []).length = 5 := by
    simp only [find_matching_series_for_loadout, List.length_take,
      List.length_insertionSort]
    simp [DEFAULT_SERIES_DATA]
  rw [h5]
  decide

/-- C3 amended: the matcher scores every series of the catalog except series
number 0, sorts descending by score, and returns only the first five
entries: the output length is `min 5 (number of non-zero series)`, it is
sorted descending, and every returned entry has a non-zero series. -/
theorem find_matching_top5 (calcs : Calculations) (seriesData : List SeriesInfo)
    (rotating : List (String × String)) :
    (find_matching_series_for_loadout calcs seriesData rotating).length =
        min 5 (seriesData.filter (fun s => s.series ≠ 0)).length ∧
    List.Sorted (fun a b => b.score ≤ a.score)
        (find_matching_series_for_loadout calcs seriesData rotating) ∧
    ∀ x ∈ find_matching_series_for_loadout calcs seriesData rotating, x.series ≠ 0 := by
  refine ⟨?_, ?_, ?_⟩
  · simp only [find_matching_series_for_loadout, List.length_take,
      List.length_insertionSort, List.length_map]
  · exact (List.sorted_insertionSort _ _).sublist (List.take_sublist _ _)
  · intro x hx
    have hx1 := List.mem_of_mem_take hx
    rw [List.mem_insertionSort] at hx1
    obtain ⟨sinfo, hsmem, rfl⟩ := List.mem_map.mp hx1
    have hfilter := (List.mem_filter.mp hsmem).2
    simpa [scoreSeries] using hfilter

/-- C3 witness: a singleton catalog, the single scored entry, and its
non-zero series number through the amended theorem. -/
theorem find_matching_top5_witness :
    ((⟨1, "Defending", 0⟩ : ScoredSeries) ∈
      find_matching_series_for_loadout zeroCalcs [⟨1, "Defending", "0 - 350"⟩] []) ∧
    (⟨1, "Defending", 0⟩ : ScoredSeries).series ≠ 0 := by
  have hmem : (⟨1, "Defending", 0⟩ : ScoredSeries) ∈
      find_matching_series_for_loadout zeroCalcs [⟨1, "Defending", "0 - 350"⟩] [] := by
    simp [find_matching_series_for_loadout, List.insertionSort, List.orderedInsert,
      scoreSeries, resolveFocus, scoreWithFocus, resolveTrackStats, mapGetD,
      TRACK_STATS_TO_ATTRIBUTES, driverStatGet, zeroCalcs, safe_int, digitsToNat?,
      pySplit, splitSepFuel, breakOnSep, List.isPrefixOf]
    norm_num
  exact ⟨hmem,
    (find_matching_top5 zeroCalcs [⟨1, "Defending", "0 - 350"⟩] []).2.2 _ hmem⟩

/-- C6: eligibility is monotone in the category ceiling: a loadout valid for
a category is valid for every category with a larger or equal `max_series`,
against the same catalog state. -/
theorem eligibility_monotone (cat : Catalog) (lo : LoadoutSlots) (c1 c2 : String)
    (g1 g2 : GPCategory) (h1 : lookupCategory c1 = some g1)
    (h2 : lookupCategory c2 = some g2) (hle : g1.max_series ≤ g2.max_series)
    (hv : is_loadout_valid_for_category cat lo c1 = true) :
    is_loadout_valid_for_category cat lo c2 = true := by
  unfold is_loadout_valid_for_category at hv ⊢
  rw [h1] at hv
  rw [h2]
  rw [Bool.and_eq_true] at hv ⊢
  obtain ⟨hdrv, hcmp⟩ := hv
  rw [List.all_eq_true] at hdrv hcmp
  constructor
  · rw [List.all_eq_true]
    intro n hn
    have hp := hdrv n hn
    by_cases hne : n = ""
    · rw [if_pos hne]
    · rw [if_neg hne] at hp ⊢
      simp only [decide_eq_true_eq] at hp ⊢
      omega
  · rw [List.all_eq_true]
    intro p hp2
    have hp := hcmp p hp2
    by_cases hne : p.2 = ""
    · rw [if_pos hne]
    · rw [if_neg hne] at hp ⊢
      simp only [decide_eq_true_eq] at hp ⊢
      omega

/-- C6 witness: a loadout valid for Challenger (ceiling 6) is valid for
Contender (ceiling 9), over a catalog with one series-5 driver. -/
theorem eligibility_monotone_witness :
    lookupCategory "Challenger" =
      some ⟨"Challenger", 6, "Components and drivers from series 6 and below"⟩ ∧
    lookupCategory "Contender" =
      some ⟨"Contender", 9, "Components and drivers from series 9 and below"⟩ ∧
    is_loadout_valid_for_category ⟨[⟨"Alice", 5⟩], []⟩ ⟨["Alice"], []⟩ "Challenger" = true ∧
    is_loadout_valid_for_category ⟨[⟨"Alice", 5⟩], []⟩ ⟨["Alice"], []⟩ "Contender" = true :=
  ⟨by decide, by decide, by decide,
    eligibility_monotone ⟨[⟨"Alice", 5⟩], []⟩ ⟨["Alice"], []⟩ "Challenger" "Contender"
      ⟨"Challenger", 6, "Components and drivers from series 6 and below"⟩
      ⟨"Contender", 9, "Components and drivers from series 9 and below"⟩
      (by decide) (by decide) (by decide) (by decide)⟩

/-- C7: for two sampled levels bracketing the requested level, every
interpolated stat lies in the closed interval of its two sampled values when
those are ordered — componentwise for the rational component stats, and
after Python rounding for the integer driver stats. -/
theorem interpolation_within_bounds (lc uc : CompStats) (ldrv udrv : DriverLevelStats)
    (lower_level higher_level level : ℕ)
    (h1 : lower_level < level) (h2 : level < higher_level) :
    (lc.speed ≤ uc.speed →
      lc.speed ≤ (interpolateComp lc uc lower_level higher_level level).speed ∧
      (interpolateComp lc uc lower_level higher_level level).speed ≤ uc.speed) ∧
    (lc.cornering ≤ uc.cornering →
      lc.cornering ≤ (interpolateComp lc uc lower_level higher_level level).cornering ∧
      (interpolateComp lc uc lower_level higher_level level).cornering ≤ uc.cornering) ∧
    (lc.power_unit ≤ uc.power_unit →
      lc.power_unit ≤ (interpolateComp lc uc lower_level higher_level level).power_unit ∧
      (interpolateComp lc uc lower_level higher_level level).power_unit ≤ uc.power_unit) ∧
    (lc.qualifying ≤ uc.qualifying →
      lc.qualifying ≤ (interpolateComp lc uc lower_level higher_level level).qualifying ∧
      (interpolateComp lc uc lower_level higher_level level).qualifying ≤ uc.qualifying) ∧
    (lc.pit_time ≤ uc.pit_time →
      lc.pit_time ≤ (interpolateComp lc uc lower_level higher_level level).pit_time ∧
      (interpolateComp lc uc lower_level higher_level level).pit_time ≤ uc.pit_time) ∧
    (ldrv.overtaking ≤ udrv.overtaking →
      ldrv.overtaking ≤ (interpolateDriver ldrv udrv lower_level higher_level level).overtaking ∧
      (interpolateDriver ldrv udrv lower_level higher_level level).overtaking ≤ udrv.overtaking) ∧
    (ldrv.defending ≤ udrv.defending →
      ldrv.defending ≤ (interpolateDriver ldrv udrv lower_level higher_level level).defending ∧
      (interpolateDriver ldrv udrv lower_level higher_level level).defending ≤ udrv.defending) ∧
    (ldrv.qualifying ≤ udrv.qualifying →
      ldrv.qualifying ≤ (interpolateDriver ldrv udrv lower_level higher_level level).qualifying ∧
      (interpolateDriver ldrv udrv lower_level higher_level level).qualifying ≤ udrv.qualifying) ∧
    (ldrv.race_start ≤ udrv.race_start →
      ldrv.race_start ≤ (interpolateDriver ldrv udrv lower_level higher_level level).race_start ∧
      (interpolateDriver ldrv udrv lower_level higher_level level).race_start ≤ udrv.race_start) ∧
    (ldrv.tyre_mgmt ≤ udrv.tyre_mgmt →
      ldrv.tyre_mgmt ≤ (interpolateDriver ldrv udrv lower_level higher_level level).tyre_mgmt ∧
      (interpolateDriver ldrv udrv lower_level higher_level level).tyre_mgmt ≤ udrv.tyre_mgmt) := by
  obtain ⟨hf0, hf1⟩ := interpFactor_bounds lower_level higher_level level h1 h2
  refine ⟨?_, ?_, ?_, ?_, ?_, ?_, ?_, ?_, ?_, ?_⟩
  · intro hab
    simpa [interpolateComp] using interpStat_bounds lc.speed uc.speed _ hf0 hf1 hab
  · intro hab
    simpa [interpolateComp] using interpStat_bounds lc.cornering uc.cornering _ hf0 hf1 hab
  · intro hab
    simpa [interpolateComp] using interpStat_bounds lc.power_unit uc.power_unit _ hf0 hf1 hab
  · intro hab
    simpa [interpolateComp] using interpStat_bounds lc.qualifying uc.qualifying _ hf0 hf1 hab
  · intro hab
    simpa [interpolateComp] using interpStat_bounds lc.pit_time uc.pit_time _ hf0 hf1 hab
  · intro hab
    have hcast : (ldrv.overtaking : ℚ) ≤ (udrv.overtaking : ℚ) := by exact_mod_cast hab
    obtain ⟨hl, hu⟩ := interpStat_bounds _ _ _ hf0 hf1 hcast
    simpa [interpolateDriver] using pyRound_bounds ldrv.overtaking udrv.overtaking _ hl hu
  · intro hab
    have hcast : (ldrv.defending : ℚ) ≤ (udrv.defending : ℚ) := by exact_mod_cast hab
    obtain ⟨hl, hu⟩ := interpStat_bounds _ _ _ hf0 hf1 hcast
    simpa [interpolateDriver] using pyRound_bounds ldrv.defending udrv.defending _ hl hu
  · intro hab
    have hcast : (ldrv.qualifying : ℚ) ≤ (udrv.qualifying : ℚ) := by exact_mod_cast hab
    obtain ⟨hl, hu⟩ := interpStat_bounds _ _ _ hf0 hf1 hcast
    simpa [interpolateDriver] using pyRound_bounds ldrv.qualifying udrv.qualifying _ hl hu
  · intro hab
    have hcast : (ldrv.race_start : ℚ) ≤ (udrv.race_start : ℚ) := by exact_mod_cast hab
    obtain ⟨hl, hu⟩ := interpStat_bounds _ _ _ hf0 hf1 hcast
    simpa [interpolateDriver] using pyRound_bounds ldrv.race_start udrv.race_start _ hl hu
  · intro hab
    have hcast : (ldrv.tyre_mgmt : ℚ) ≤ (udrv.tyre_mgmt : ℚ) := by exact_mod_cast hab
    obtain ⟨hl, hu⟩ := interpStat_bounds _ _ _ hf0 hf1 hcast
    simpa [interpolateDriver] using pyRound_bounds ldrv.tyre_mgmt udrv.tyre_mgmt _ hl hu

/-- C7 witness: component speed samples 10 (level 5) and 20 (level 9),
request level 7, and driver overtaking samples 3 and 8 at the same levels,
both within bounds. -/
theorem interpolation_within_bounds_witness :
    (5 : ℕ) < 7 ∧ (7 : ℕ) < 9 ∧
    ((componentLevelEntry 5 10 0 0 0 0).speed ≤
        (interpolateComp (componentLevelEntry 5 10 0 0 0 0)
          (componentLevelEntry 9 20 0 0 0 0) 5 9 7).speed ∧
      (interpolateComp (componentLevelEntry 5 10 0 0 0 0)
          (componentLevelEntry 9 20 0 0 0 0) 5 9 7).speed ≤
        (componentLevelEntry 9 20 0 0 0 0).speed) ∧
    ((driverLevelEntry 5 3 0 0 0 0).overtaking ≤
        (interpolateDriver (driverLevelEntry 5 3 0 0 0 0)
          (driverLevelEntry 9 8 0 0 0 0) 5 9 7).overtaking ∧
      (interpolateDriver (driverLevelEntry 5 3 0 0 0 0)
          (driverLevelEntry 9 8 0 0 0 0) 5 9 7).overtaking ≤
        (driverLevelEntry 9 8 0 0 0 0).overtaking) := by
  have h := interpolation_within_bounds (componentLevelEntry 5 10 0 0 0 0)
    (componentLevelEntry 9 20 0 0 0 0) (driverLevelEntry 5 3 0 0 0 0)
    (driverLevelEntry 9 8 0 0 0 0) 5 9 7 (by decide) (by decide)
  exact ⟨by decide, by decide,
    h.1 (by norm_num [componentLevelEntry]),
    h.2.2.2.2.2.1 (by norm_num [driverLevelEntry])⟩

/-- C9: names absent from every catalog document resolve to series 0 in both
lookups, and a loadout made only of such items (or empty slots) is valid for
every defined Grand Prix category: series 0 can never exceed a ceiling. -/
theorem absent_names_never_invalidate (cat : Catalog) (lo : LoadoutSlots)
    (category : String) (gc : GPCategory) (hcat : lookupCategory category = some gc)
    (hd : ∀ n ∈ lo.drivers, cat.drivers.find? (fun d => d.name = n) = none)
    (hc : ∀ p ∈ lo.components, ∀ l ∈ cat.components,
      l.find? (fun c => c.name = p.2) = none) :
    (∀ n ∈ lo.drivers, get_driver_series cat n = 0) ∧
    (∀ p ∈ lo.components, get_component_series cat p.2 = 0) ∧
    is_loadout_valid_for_category cat lo category = true := by
  have hds : ∀ n ∈ lo.drivers, get_driver_series cat n = 0 := by
    intro n hn
    unfold get_driver_series
    rw [hd n hn]
  have hcs : ∀ p ∈ lo.components, get_component_series cat p.2 = 0 := by
    intro p hp
    unfold get_component_series
    rw [findComponent_eq_none cat.components p.2 (hc p hp)]
  refine ⟨hds, hcs, ?_⟩
  unfold is_loadout_valid_for_category
  rw [hcat, Bool.and_eq_true]
  constructor
  · rw [List.all_eq_true]
    intro n hn
    by_cases hne : n = ""
    · rw [if_pos hne]
    · rw [if_neg hne, hds n hn]
      simp
  · rw [List.all_eq_true]
    intro p hp
    by_cases hne : p.2 = ""
    · rw [if_pos hne]
    · rw [if_neg hne, hcs p hp]
      simp

/-- C9 witness: the absent names `Bob` and `Gadget` against a catalog
holding only `Alice` and `Wing`; the loadout is valid for Challenger. -/
theorem absent_names_never_invalidate_witness :
    lookupCategory "Challenger" =
      some ⟨"Challenger", 6, "Components and drivers from series 6 and below"⟩ ∧
    get_driver_series ⟨[⟨"Alice", 5⟩], [[⟨"Wing", 3⟩]]⟩ "Bob" = 0 ∧
    is_loadout_valid_for_category ⟨[⟨"Alice", 5⟩], [[⟨"Wing", 3⟩]]⟩
      ⟨["Bob"], [("brakes", "Gadget")]⟩ "Challenger" = true := by
  have h := absent_names_never_invalidate ⟨[⟨"Alice", 5⟩], [[⟨"Wing", 3⟩]]⟩
    ⟨["Bob"], [("brakes", "Gadget")]⟩ "Challenger"
    ⟨"Challenger", 6, "Components and drivers from series 6 and below"⟩
    (by decide) (by decide) (by decide)
  exact ⟨by decide, h.1 "Bob" (by decide), h.2.2⟩

/-- C10: when the resolved track-stats label has no entry in
`TRACK_STATS_TO_ATTRIBUTES` the matcher resolves the focus to `"speed"` and
scores the series with that focus; in particular a `Rotating` series with no
supplied override resolves to `"speed"`. -/
theorem unmapped_label_scores_as_speed (info : SeriesInfo)
    (rotating : List (String × String)) (calcs : Calculations)
    (h : TRACK_STATS_TO_ATTRIBUTES.find? (fun p =>
        p.1 = resolveTrackStats info.track_stats rotating info.series) = none) :
    resolveFocus info rotating = "speed" ∧
    (scoreSeries calcs rotating info).score =
      scoreWithFocus calcs "speed" info.recommended_ts ∧
    ∀ n ts, resolveFocus ⟨n, "Rotating", ts⟩ [] = "speed" := by
  have hfocus : resolveFocus info rotating = "speed" := by
    unfold resolveFocus mapGetD
    rw [h]
  refine ⟨hfocus, ?_, ?_⟩
  · show scoreWithFocus calcs (resolveFocus info rotating) info.recommended_ts = _
    rw [hfocus]
  · intro n ts
    unfold resolveFocus resolveTrackStats mapGetD
    simp [TRACK_STATS_TO_ATTRIBUTES]

/-- C10 witness: series 10 labelled `Rotating` with an empty override map
resolves through the fallback to the focus `"speed"`. -/
theorem unmapped_label_scores_as_speed_witness :
    TRACK_STATS_TO_ATTRIBUTES.find? (fun p =>
      p.1 = resolveTrackStats "Rotating" [] 10) = none ∧
    resolveFocus ⟨10, "Rotating", "1050 - 1300"⟩ [] = "speed" := by
  have h := unmapped_label_scores_as_speed ⟨10, "Rotating", "1050 - 1300"⟩ []
    zeroCalcs (by decide)
  exact ⟨by decide, h.1⟩

/-- C8 witness: the unknown rarity `Mythic` at level 5 with 3 cards. -/
theorem unknown_rarity_reaches_11_witness :
    ("Mythic" ∉ (["Common", "Rare", "Epic", "Legendary"] : List String)) ∧
    (update_item_upgrade_info ⟨"Mythic", 5⟩ 3).highestLevel = 11 ∧
    (update_item_upgrade_info ⟨"Mythic", 5⟩ 3).upgradeInfo.maxCards = 0 ∧
    (update_item_upgrade_info ⟨"Mythic", 5⟩ 3).upgradeInfo.cardsNeeded = 0 := by
  have h := unknown_rarity_reaches_11 "Mythic" 5 3 (by decide) (by decide)
    (by decide) (by decide)
  exact ⟨by decide, h.1, h.2.1, h.2.2⟩

end F1Clash
